import Mathlib

/-!
Shallow embedding of the input/device translation core of xrizer
(an OpenVR-to-OpenXR shim), together with proofs about its custom
binding evaluators, handle maps, legacy input path, tracked-device
table and skeletal queries.

Conventions of the embedding:
* OpenVR/OpenXR float values are modelled as exact rationals where the
  source only compares and adds them, and as real numbers where the
  source applies transcendental functions (the dpad polar conversion).
* Stateful Rust methods that mutate an atomic latch are modelled as
  pure functions taking the pre-state of the latch and returning the
  post-state alongside the original return value.
* Fallible calls take the read results as explicit parameters; the
  OpenXR session is therefore not modelled, only the data read from it.
-/

namespace Xrizer

/-- Mirror of xr::ActionState<T>: the snapshot an OpenXR action read returns. -/
structure ActionState (α : Type) where
  current_state : α
  changed_since_last_sync : Bool
  last_change_time : Int
  is_active : Bool
deriving DecidableEq, Repr

/-! ## Grab bindings (src/input/custom_bindings.rs, GrabBindingData) -/

/-- Mirror of GrabBindingData: the two thresholds; the atomic last_state
latch is passed explicitly to state. -/
structure GrabBindingData where
  hold_threshold : ℚ
  release_threshold : ℚ
deriving DecidableEq, Repr

/-- How much force to apply to begin a grab (source: const DEFAULT_GRAB_THRESHOLD = 0.70). -/
def GrabBindingData.DEFAULT_GRAB_THRESHOLD : ℚ := 0.70

/-- How much the value component needs to be to release the grab
(source: const DEFAULT_RELEASE_THRESHOLD = 0.65). -/
def GrabBindingData.DEFAULT_RELEASE_THRESHOLD : ℚ := 0.65

/-- Mirror of GrabBindingData::new. -/
def GrabBindingData.new (grab_threshold release_threshold : Option ℚ) : GrabBindingData where
  hold_threshold := grab_threshold.getD GrabBindingData.DEFAULT_GRAB_THRESHOLD
  release_threshold := release_threshold.getD GrabBindingData.DEFAULT_RELEASE_THRESHOLD

/-- The effective pressure computed inside GrabBindingData::state:
force + 1 when force > 0, otherwise value. -/
def effectivePressure (force value : ℚ) : ℚ :=
  if force > 0 then force + 1 else value

/-- The latch update computed inside GrabBindingData::state. -/
def grabNext (g : GrabBindingData) (prev_grabbed : Bool) (value : ℚ) : Bool :=
  (prev_grabbed && decide (value > g.release_threshold))
    || (!prev_grabbed && decide (value ≥ g.hold_threshold))

/-- Mirror of GrabBindingData::state.  Takes the pre-value of the
last_state latch and the two action reads; returns the post-value of
the latch and the returned Option<ActionState<bool>>. -/
def GrabBindingData.state (g : GrabBindingData) (last_state : Bool)
    (force_state value_state : ActionState ℚ) : Bool × Option (ActionState Bool) :=
  if !force_state.is_active || !value_state.is_active then
    (false, none)
  else
    let prev_grabbed := last_state
    let value := effectivePressure force_state.current_state value_state.current_state
    let grabbed := grabNext g prev_grabbed value
    let changed_since_last_sync := grabbed != prev_grabbed
    (grabbed, some ⟨grabbed, changed_since_last_sync, force_state.last_change_time, true⟩)

/-! ## Threshold bindings (src/input/custom_bindings.rs, ThresholdBindingData) -/

/-- Mirror of ThresholdBindingData<T>: the two thresholds, generic over the
ordered value type (rationals for the float instantiation, reals for the
vec2-magnitude instantiation). -/
structure ThresholdBindingData (α : Type) where
  click_threshold : α
  release_threshold : α

/-- Source: const DEFAULT_CLICK_THRESHOLD = 0.25. -/
def ThresholdBindingData.DEFAULT_CLICK_THRESHOLD : ℚ := 0.25

/-- Source: const DEFAULT_RELEASE_THRESHOLD = 0.20. -/
def ThresholdBindingData.DEFAULT_RELEASE_THRESHOLD : ℚ := 0.20

/-- Mirror of ThresholdBindingData::new (rational instantiation). -/
def ThresholdBindingData.new (click_threshold release_threshold : Option ℚ) :
    ThresholdBindingData ℚ where
  click_threshold := click_threshold.getD ThresholdBindingData.DEFAULT_CLICK_THRESHOLD
  release_threshold := release_threshold.getD ThresholdBindingData.DEFAULT_RELEASE_THRESHOLD

/-- The latch update computed inside ThresholdBindingData::state: compare
against the release threshold while latched, the click threshold otherwise. -/
def thresholdNext [LinearOrder α] (t : ThresholdBindingData α) (s : Bool) (value : α) : Bool :=
  decide (value ≥ (if s then t.release_threshold else t.click_threshold))

/-- Mirror of ThresholdBindingData::state.  The read of the underlying
float (or vec2-magnitude) source is the state parameter. -/
def ThresholdBindingData.state [LinearOrder α] (t : ThresholdBindingData α)
    (last_state : Bool) (state : ActionState α) : Bool × Option (ActionState Bool) :=
  if !state.is_active then
    (last_state, none)
  else
    let s := last_state
    let current_state := thresholdNext t s state.current_state
    let changed_since_last_sync := current_state != s
    (current_state, some ⟨current_state, changed_since_last_sync, state.last_change_time, true⟩)

/-- Mirror of the ThresholdType impl of state for Vector2: the vec2 read is
reduced to the magnitude of its (x, y) value before the comparison. -/
noncomputable def ThresholdVector2.sourceState (state : ActionState (ℝ × ℝ)) : ActionState ℝ where
  current_state := Real.sqrt (state.current_state.1 * state.current_state.1 +
    state.current_state.2 * state.current_state.2)
  changed_since_last_sync := state.changed_since_last_sync
  last_change_time := state.last_change_time
  is_active := state.is_active

/-- Folding ThresholdBindingData::state over a sequence of active source
values, tracking only the latch. -/
def ThresholdBindingData.run [LinearOrder α] (t : ThresholdBindingData α)
    (last_state : Bool) (values : List α) : Bool :=
  values.foldl (fun l v => (t.state l ⟨v, false, 0, true⟩).1) last_state

/-! ## Toggle bindings (src/input/custom_bindings.rs, ToggleData) -/

/-- The latch update computed inside ToggleData::state: flip on a rising
edge of the source, keep otherwise. -/
def toggleNext (s : Bool) (state : ActionState Bool) : Bool :=
  if state.changed_since_last_sync && state.current_state then !s else s

/-- Mirror of ToggleData::state.  Takes the pre-value of the last_state
latch and the read of the source boolean action. -/
def ToggleData.state (last_state : Bool) (state : ActionState Bool) :
    Bool × Option (ActionState Bool) :=
  if !state.is_active then
    (last_state, none)
  else
    let s := last_state
    let current_state := toggleNext s state
    let changed_since_last_sync := current_state != s
    (current_state, some ⟨current_state, changed_since_last_sync, state.last_change_time, true⟩)

/-! ## Per-sync memoization (src/input/custom_bindings.rs, BindingData) -/

/-- Mirror of the private enum BindingState: Unsynced, or Synced with the
memoized Option<ActionState<bool>> of the current sync. -/
inductive BindingState (St : Type) where
  | Unsynced
  | Synced (state : Option St)
deriving DecidableEq, Repr

/-- Mirror of BindingData::unsync: resets the memo slot. -/
def BindingData.unsync (_ : BindingState St) : BindingState St :=
  BindingState.Unsynced

/-- Mirror of BindingData::state.  The per-variant evaluator (the state
method of the Dpad/Toggle/Grab/Threshold data, closed over the session
reads) is abstracted as a function from the evaluator's own latch state to
an OpenXR result; hasAction models the extra_data lookup of the get_state
macro (absent extra actions short-circuit to None).  Returns the new memo,
the new evaluator latch and the returned Option state. -/
def BindingData.state (eval : σ → Except E (σ × Option St)) (hasAction : Bool)
    (hand subaction_path : ℕ) (memo : BindingState St) (latch : σ) :
    Except E (BindingState St × σ × Option St) :=
  if hand ≠ subaction_path then Except.ok (memo, latch, none)
  else
    match memo with
    | BindingState.Synced s => Except.ok (BindingState.Synced s, latch, s)
    | BindingState.Unsynced =>
      if !hasAction then Except.ok (BindingState.Unsynced, latch, none)
      else
        match eval latch with
        | Except.error e => Except.error e
        | Except.ok (latch', r) => Except.ok (BindingState.Synced r, latch', r)

/-- n successive calls to BindingData::state, collecting every returned
value (the reads an application performs between two sync points). -/
def BindingData.stateN (eval : σ → Except E (σ × Option St)) (hasAction : Bool)
    (hand subaction_path : ℕ) :
    ℕ → BindingState St → σ → Except E (BindingState St × σ × List (Option St))
  | 0, memo, latch => Except.ok (memo, latch, [])
  | n + 1, memo, latch =>
    match BindingData.state eval hasAction hand subaction_path memo latch with
    | Except.error e => Except.error e
    | Except.ok (memo', latch', r) =>
      match BindingData.stateN eval hasAction hand subaction_path n memo' latch' with
      | Except.error e => Except.error e
      | Except.ok (memo'', latch'', rs) => Except.ok (memo'', latch'', r :: rs)

/-! ## Handle maps (src/input.rs, GetActionHandle / GetActionSetHandle /
GetInputSourceHandle) -/

/-- Model of a slotmap used as a handle map: interned entries as
(key, stored string) pairs plus a fresh-key counter; key.data().as_ffi()
is modelled by the key itself. -/
structure HandleMap where
  entries : List (ℕ × String)
  next_key : ℕ
deriving DecidableEq, Repr

/-- The common find-or-insert shape of the three Get*Handle entry points:
look the (normalized) name up among the stored strings; only when a fresh
read confirms absence is a new entry inserted under a fresh key. -/
def getOrInsertHandle (normalize : String → String) (m : HandleMap) (name : String) :
    HandleMap × ℕ :=
  let n := normalize name
  match m.entries.find? (fun e => e.2 == n) with
  | some e => (m, e.1)
  | none => (⟨m.entries ++ [(m.next_key, n)], m.next_key + 1⟩, m.next_key)

/-- Model of str::to_lowercase as applied to action paths. -/
def toLowercase (s : String) : String :=
  ⟨s.data.map Char.toLower⟩

/-- Mirror of GetActionHandle: the lookup key is the lowercased name. -/
def GetActionHandle (m : HandleMap) (action_name : String) : HandleMap × ℕ :=
  getOrInsertHandle toLowercase m action_name

/-- Mirror of GetActionSetHandle: the lookup key is the lowercased name. -/
def GetActionSetHandle (m : HandleMap) (action_set_name : String) : HandleMap × ℕ :=
  getOrInsertHandle toLowercase m action_set_name

/-- Mirror of GetInputSourceHandle: the lookup key is the path string itself. -/
def GetInputSourceHandle (m : HandleMap) (input_source_path : String) : HandleMap × ℕ :=
  getOrInsertHandle id m input_source_path

/-! ## Legacy input path (src/input/legacy.rs) -/

/-- Mirror of openxr_data::Hand. -/
inductive Hand where
  | Left
  | Right
deriving DecidableEq, Repr

/-- Mirror of the ActionData enum (src/input.rs): the per-action payload of
the manifest action table; only the variant tags matter here, with the
haptic action identified by a number. -/
inductive ActionData where
  | Bool
  | Vector1
  | Vector2
  | Pose
  | Skeleton (hand : Hand)
  | Haptic (action : ℕ)
deriving DecidableEq, Repr

/-- The find_map of legacy_haptic_via_manifest: the first haptic action in
the manifest's action table. -/
def firstHapticAction (actions : List ActionData) : Option ℕ :=
  actions.findSome? fun a =>
    match a with
    | ActionData.Haptic h => some h
    | _ => none

/-- The parameters of an xr::HapticVibration as built by the legacy path. -/
structure HapticVibration where
  amplitude : ℚ
  frequency_unspecified : Bool
  duration_nanos : ℤ
deriving DecidableEq, Repr

/-- Which action a triggered vibration was applied through. -/
inductive HapticTarget where
  | ManifestAction (action : ℕ)
  | LegacyAction
deriving DecidableEq, Repr

/-- Mirror of Input::legacy_haptic_via_manifest: reroute to the first
declared haptic action (or do nothing if none exists), with amplitude 1.0,
unspecified frequency and duration_us * 1000 nanoseconds. -/
def legacy_haptic_via_manifest (manifest_actions : List ActionData) (duration_us : ℕ) :
    Option (HapticTarget × HapticVibration) :=
  match firstHapticAction manifest_actions with
  | none => none
  | some h => some (HapticTarget.ManifestAction h, ⟨1, true, (duration_us : ℤ) * 1000⟩)

/-- Mirror of Input::legacy_haptic.  The device-to-hand lookup, the loaded
manifest table and the legacy-actions readiness are passed as the values
the source reads; returns the vibration applied, if any. -/
def legacy_haptic (device_to_hand : Option Hand)
    (manifest_actions : Option (List ActionData)) (legacy_ready : Bool)
    (duration_us : ℕ) : Option (HapticTarget × HapticVibration) :=
  match device_to_hand with
  | none => none
  | some _ =>
    match manifest_actions with
    | some actions => legacy_haptic_via_manifest actions duration_us
    | none =>
      if !legacy_ready then none
      else some (HapticTarget.LegacyAction, ⟨1, true, (duration_us : ℤ) * 1000⟩)

/-- Mirror of the fields of vr::VRControllerState_t written by the legacy
path. -/
structure VRControllerState where
  unPacketNum : ℕ
  ulButtonPressed : ℕ
  ulButtonTouched : ℕ
  rAxis0 : ℚ × ℚ
  rAxis1 : ℚ × ℚ
  rAxis2 : ℚ × ℚ
deriving DecidableEq, Repr

/-- Rust Default::default() for VRControllerState_t: everything zeroed. -/
def VRControllerState.default : VRControllerState :=
  ⟨0, 0, 0, (0, 0), (0, 0), (0, 0)⟩

/-- Mirror of button_mask_from_id: 1u64 << id. -/
def button_mask_from_id (id : ℕ) : ℕ :=
  (1 <<< id) % 2 ^ 64

/-- OpenVR EVRButtonId values used by the legacy path. -/
def EVRButtonId.ApplicationMenu : ℕ := 1

def EVRButtonId.Grip : ℕ := 2

def EVRButtonId.A : ℕ := 7

def EVRButtonId.Axis0 : ℕ := 32

def EVRButtonId.SteamVR_Trigger : ℕ := 33

def EVRButtonId.Axis2 : ℕ := 34

/-- The boolean and analog states of the fixed legacy actions read by
get_legacy_controller_state for one hand. -/
structure LegacyReadings where
  main_xy_click : Bool
  main_xy_touch : Bool
  trigger_click : Bool
  app_menu : Bool
  a : Bool
  squeeze_click : Bool
  main_xy : ℚ × ℚ
  trigger : ℚ
  squeeze : ℚ
deriving DecidableEq, Repr

/-- Mirror of the read_button closure: ors the button's mask into the
touched and pressed bitmasks (mask & (state as u64 * u64::MAX)). -/
def read_button (st : VRControllerState) (id : ℕ) (click : Bool) (touch : Option Bool) :
    VRControllerState :=
  let touched := touch.getD false
  let st := { st with ulButtonTouched :=
    st.ulButtonTouched ||| (button_mask_from_id id &&& (if touched then 2 ^ 64 - 1 else 0)) }
  { st with ulButtonPressed :=
    st.ulButtonPressed ||| (button_mask_from_id id &&& (if click then 2 ^ 64 - 1 else 0)) }

/-- The success path of get_legacy_controller_state: stamp the packet
number, run the six read_button calls and fill the three axes. -/
def fillControllerState (packet_num : ℕ) (r : LegacyReadings) : VRControllerState :=
  let st := { VRControllerState.default with unPacketNum := packet_num }
  let st := read_button st EVRButtonId.Axis0 r.main_xy_click (some r.main_xy_touch)
  let st := read_button st EVRButtonId.SteamVR_Trigger r.trigger_click none
  let st := read_button st EVRButtonId.ApplicationMenu r.app_menu none
  let st := read_button st EVRButtonId.A r.a none
  let st := read_button st EVRButtonId.Grip r.squeeze_click none
  let st := read_button st EVRButtonId.Axis2 r.squeeze_click none
  { st with rAxis0 := r.main_xy, rAxis1 := (r.trigger, 0), rAxis2 := (r.squeeze, 0) }

/-- Modelled from the spec: the WriteOnDrop guard wrapped around the
caller's out-pointer in get_legacy_controller_state.  Its definition lives
in the input module root, which is not among the sources here; per the
spec's legacy-path description and the init_controller_state_on_failure
test, it holds a default-initialized VRControllerState_t that the function
body then fills, and writes that value through the pointer when dropped,
i.e. on every exit path reached after the guard is created.  The memory
cell behind the pointer is an Option (none standing for uninitialized). -/
def writeOnDrop (value : VRControllerState) (_mem : Option VRControllerState) :
    Option VRControllerState :=
  some value

/-- Mirror of Input::get_legacy_controller_state.  The inputs the source
reads (struct size check, pointer nullness, loaded manifest, legacy-action
readiness, device-to-hand lookup, packet counter, action reads) are
parameters; returns the bool result and the final memory cell behind the
out-pointer. -/
def get_legacy_controller_state (state_size_ok ptr_nonnull : Bool)
    (manifest_loaded legacy_ready : Bool) (device_to_hand : Option Hand)
    (packet_num : ℕ) (r : LegacyReadings) (mem : Option VRControllerState) :
    Bool × Option VRControllerState :=
  if !state_size_ok then (false, mem)
  else if !ptr_nonnull then (false, mem)
  else
    let value := VRControllerState.default
    if manifest_loaded then (false, writeOnDrop value mem)
    else if !legacy_ready then (false, writeOnDrop value mem)
    else
      match device_to_hand with
      | none => (false, writeOnDrop value mem)
      | some _ => (true, writeOnDrop (fillControllerState packet_num r) mem)

/-! ## Tracked device table (src/input/devices.rs) -/

/-- Mirror of TrackedDeviceType; the tracker's space is dropped and its
serial kept. -/
inductive TrackedDeviceType where
  | Hmd
  | Controller (hand : Hand)
  | GenericTracker (serial : String)
deriving DecidableEq, Repr

/-- The openvr error values the device table produces. -/
inductive EVRInputError where
  | None
  | MaxCapacityReached
deriving DecidableEq, Repr

/-- OpenVR constant vr::k_unMaxTrackedDeviceCount. -/
def k_unMaxTrackedDeviceCount : ℕ := 64

/-- Mirror of TrackedDeviceList::push_device: returns the updated device
list and the result; on error the list is handed back unchanged. -/
def push_device (devices : List TrackedDeviceType) (device : TrackedDeviceType) :
    List TrackedDeviceType × Except EVRInputError ℕ :=
  let index := devices.length
  if index ≥ k_unMaxTrackedDeviceCount then
    (devices, Except.error EVRInputError.MaxCapacityReached)
  else
    (devices ++ [device], Except.ok index)

/-- Mirror of the XDev data used by tracker enumeration. -/
structure XDev where
  can_create_space : Bool
  name : String
  serial : String
deriving DecidableEq, Repr

/-- Whether a device is a generic tracker (the retain predicate, negated). -/
def isGenericTracker : TrackedDeviceType → Bool
  | TrackedDeviceType.GenericTracker _ => true
  | _ => false

/-- Model of str::contains over character lists. -/
def charsContain (pat : List Char) : List Char → Bool
  | [] => decide (pat = [])
  | c :: rest => pat.isPrefixOf (c :: rest) || charsContain pat rest

/-- The name filter of tracker enumeration: the lowercased xdev name must
contain "tracker". -/
def nameContainsTracker (name : String) : Bool :=
  charsContain "tracker".data (toLowercase name).data

/-- Mirror of TrackedDeviceList::create_monado_generic_trackers: drop the
old generic trackers, filter the enumerated xdevs to those that can create
a space and whose name names a tracker, truncate to the remaining
capacity, and append the new trackers. -/
def create_monado_generic_trackers (extension_enabled : Bool)
    (devices : List TrackedDeviceType) (xdevs : List XDev) : List TrackedDeviceType :=
  if !extension_enabled then devices
  else
    let devices := devices.filter (fun d => !(isGenericTracker d))
    let max_generic_trackers := k_unMaxTrackedDeviceCount - devices.length
    let candidates := xdevs.filter (fun x => x.can_create_space && nameContainsTracker x.name)
    let candidates := candidates.take max_generic_trackers
    devices ++ candidates.map (fun x => TrackedDeviceType.GenericTracker x.serial)

/-! ## Dpad bindings (src/input/custom_bindings.rs, DpadData) -/

/-- Mirror of DpadDirection. -/
inductive DpadDirection where
  | North
  | East
  | South
  | West
  | Center
deriving DecidableEq, Repr

/-- Source constant DpadData::CENTER_ZONE. -/
def DpadData.CENTER_ZONE : ℝ := 0.5

/-- Source constant DpadData::DPAD_CLICK_THRESHOLD (force-activated dpads). -/
def DpadData.DPAD_CLICK_THRESHOLD : ℝ := 0.33

/-- Source constant DpadData::DPAD_RELEASE_THRESHOLD. -/
def DpadData.DPAD_RELEASE_THRESHOLD : ℝ := 0.2

/-- Model of f32::hypot. -/
noncomputable def hypot (x y : ℝ) : ℝ :=
  Real.sqrt (x * x + y * y)

open scoped Classical in
/-- Model of f32::atan2 (y.atan2(x)): the angle of (x, y) in (-π, π]. -/
noncomputable def atan2 (y x : ℝ) : ℝ :=
  if 0 < x then Real.arctan (y / x)
  else if x = 0 then
    (if 0 < y then Real.pi / 2 else if y < 0 then -(Real.pi / 2) else 0)
  else if 0 ≤ y then Real.arctan (y / x) + Real.pi
  else Real.arctan (y / x) - Real.pi

open scoped Classical in
/-- The in_bounds match of DpadData::state: convert the parent (x, y) to
polar coordinates and test the direction's π/2 wedge (no overlap; the west
section is split across the atan2 branch cut), or the center zone. -/
noncomputable def dpadInBounds (direction : DpadDirection) (x y : ℝ) : Bool :=
  let radius := hypot x y
  let angle := atan2 y x
  match direction with
  | DpadDirection.North => decide (radius ≥ DpadData.CENTER_ZONE ∧
      Real.pi / 4 ≤ angle ∧ angle ≤ 3 * Real.pi / 4)
  | DpadDirection.East => decide (radius ≥ DpadData.CENTER_ZONE ∧
      -(Real.pi / 4) ≤ angle ∧ angle ≤ Real.pi / 4)
  | DpadDirection.South => decide (radius ≥ DpadData.CENTER_ZONE ∧
      -(3 * Real.pi / 4) ≤ angle ∧ angle ≤ -(Real.pi / 4))
  | DpadDirection.West => decide (radius ≥ DpadData.CENTER_ZONE ∧
      ((3 * Real.pi / 4 ≤ angle ∧ angle ≤ Real.pi) ∨
        (-Real.pi ≤ angle ∧ angle ≤ -(3 * Real.pi / 4))))
  | DpadDirection.Center => decide (radius < DpadData.CENTER_ZONE)

open scoped Classical in
/-- The activator test of DpadData::state: an unbound click_or_touch
counts as held; a bound one is held when its own action is inactive in the
current profile (joystick touch dpads) or its value exceeds the
hysteresis-selected force threshold. -/
noncomputable def dpadActivatorHeld (last_state : Bool)
    (click_or_touch : Option (ActionState ℝ)) : Bool :=
  let active_threshold :=
    if last_state then DpadData.DPAD_RELEASE_THRESHOLD else DpadData.DPAD_CLICK_THRESHOLD
  match click_or_touch with
  | some s => !s.is_active || decide (s.current_state > active_threshold)
  | none => true

/-- The outcome of a DpadData::state call: the new last_state latch, the
new active and changed atomics, whether the entering haptic pulse fires,
and the returned Option<ActionState<bool>>. -/
structure DpadStateResult where
  last_state : Bool
  active : Bool
  changed : Bool
  haptic_fired : Bool
  result : Option (ActionState Bool)
deriving DecidableEq, Repr

/-- Mirror of DpadData::state.  The parent vector2 read and the optional
click_or_touch read are passed in; has_haptic tells whether a haptic
action is bound. -/
noncomputable def DpadData.state (direction : DpadDirection) (last_state : Bool)
    (has_haptic : Bool) (parent_state : ActionState (ℝ × ℝ))
    (click_or_touch : Option (ActionState ℝ)) : DpadStateResult :=
  let active := dpadActivatorHeld last_state click_or_touch
  if !active then
    { last_state := false, active := false, changed := last_state,
      haptic_fired := false, result := none }
  else
    let x := parent_state.current_state.1
    let y := parent_state.current_state.2
    let in_bounds := dpadInBounds direction x y
    let changed := in_bounds != last_state
    { last_state := in_bounds, active := true, changed := changed,
      haptic_fired := changed && in_bounds && has_haptic,
      result := some ⟨in_bounds, changed, parent_state.last_change_time,
        parent_state.is_active⟩ }

/-- The wedge centers the claim speaks about: N/E/S/W at π/2, 0, -π/2, π
(Center is handled by the radius test alone). -/
noncomputable def wedgeCenter : DpadDirection → ℝ
  | DpadDirection.North => Real.pi / 2
  | DpadDirection.East => 0
  | DpadDirection.South => -(Real.pi / 2)
  | DpadDirection.West => Real.pi
  | DpadDirection.Center => 0

/-- The claim's reading of the wedge test: the angle lies within π/4 of
the direction's center angle, up to full turns (a closed π/2-wide wedge). -/
def inWedge (center angle : ℝ) : Prop :=
  ∃ k : ℤ, |angle - center - 2 * Real.pi * k| ≤ Real.pi / 4

/-- The claim's statement of dpad activity: radius ≥ 0.5 and the angle in
the closed π/2-wide wedge centered on the direction for N/E/S/W, radius
< 0.5 for Center. -/
noncomputable def dpadSpecActive (direction : DpadDirection) (x y : ℝ) : Prop :=
  match direction with
  | DpadDirection.Center => hypot x y < 0.5
  | d => hypot x y ≥ 0.5 ∧ inWedge (wedgeCenter d) (atan2 y x)

/-! ## Skeletal queries (src/input.rs, GetSkeletalTrackingLevel) -/

/-- Mirror of vr::EVRSkeletalTrackingLevel. -/
inductive EVRSkeletalTrackingLevel where
  | Estimated
  | Partial
  | Full
deriving DecidableEq, Repr

/-- Mirror of the IVRInput010 GetSkeletalTrackingLevel implementation: it
ignores the action handle, unconditionally writes the Partial level
through the out-pointer, and returns no error. -/
def GetSkeletalTrackingLevel (_action : ℕ) : EVRSkeletalTrackingLevel × EVRInputError :=
  ( EVRSkeletalTrackingLevel.Partial, EVRInputError.None)

/-- Modelled from the spec: the tracking level the spec section 4.7 says
GetSkeletalTrackingLevel reports, as a function of the queried device:
Full when a hand tracker is active, Partial for Knuckles-class
controllers, Estimated otherwise. -/
def specSkeletalTrackingLevel (hand_tracker_active knuckles_controller : Bool) :
    EVRSkeletalTrackingLevel :=
  if hand_tracker_active then EVRSkeletalTrackingLevel.Full
  else if knuckles_controller then EVRSkeletalTrackingLevel.Partial
  else EVRSkeletalTrackingLevel.Estimated

end Xrizer

namespace Xrizer

/-! ## Theorems: grab (C1) -/

/-- C1: for a grab binding read while both force and value companions are
active, the effective pressure v is force + 1 when force > 0 and value
otherwise; with the default thresholds, from the not-grabbed latch the
output becomes grabbed exactly when v ≥ 0.70, from the grabbed latch it
stays grabbed exactly while v > 0.65 (so releases when v ≤ 0.65), and
changed_since_last_sync is reported exactly when the latch changed. -/
theorem grab_hysteresis (last_state : Bool) (force_state value_state : ActionState ℚ)
    (hf : force_state.is_active = true) (hv : value_state.is_active = true) :
    (GrabBindingData.new none none).state last_state force_state value_state =
      (grabNext (GrabBindingData.new none none) last_state
          (effectivePressure force_state.current_state value_state.current_state),
        some ⟨grabNext (GrabBindingData.new none none) last_state
            (effectivePressure force_state.current_state value_state.current_state),
          (grabNext (GrabBindingData.new none none) last_state
              (effectivePressure force_state.current_state value_state.current_state))
            != last_state,
          force_state.last_change_time, true⟩) ∧
    (effectivePressure force_state.current_state value_state.current_state =
      if force_state.current_state > 0 then force_state.current_state + 1
      else value_state.current_state) ∧
    (∀ v : ℚ, (grabNext (GrabBindingData.new none none) false v = true ↔ v ≥ 0.70)) ∧
    (∀ v : ℚ, (grabNext (GrabBindingData.new none none) true v = true ↔ v > 0.65)) ∧
    (∀ v : ℚ, v ≤ 0.65 → grabNext (GrabBindingData.new none none) true v = false) ∧
    (∀ b prev : Bool, ((b != prev) = true ↔ b ≠ prev)) := by
  refine ⟨by simp [GrabBindingData.state, hf, hv], rfl, ?_, ?_, ?_, ?_⟩
  · intro v
    simp [grabNext, GrabBindingData.new, GrabBindingData.DEFAULT_GRAB_THRESHOLD,
      decide_eq_true_eq]
  · intro v
    simp [grabNext, GrabBindingData.new, GrabBindingData.DEFAULT_RELEASE_THRESHOLD,
      decide_eq_true_eq]
  · intro v hle
    have : ¬((0.65 : ℚ) < v) := not_lt.mpr hle
    simp [grabNext, GrabBindingData.new, GrabBindingData.DEFAULT_RELEASE_THRESHOLD,
      decide_eq_true_eq, this]
  · intro b prev
    cases b <;> cases prev <;> simp

/-- Witness for grab_hysteresis at force = 0, value = 0.71, ungrabbed latch. -/
theorem grab_hysteresis_witness :
    (GrabBindingData.new none none).state false ⟨(0 : ℚ), false, 0, true⟩
        ⟨(0.71 : ℚ), false, 0, true⟩ =
      (grabNext (GrabBindingData.new none none) false
          (effectivePressure (0 : ℚ) (0.71 : ℚ)),
        some ⟨grabNext (GrabBindingData.new none none) false
            (effectivePressure (0 : ℚ) (0.71 : ℚ)),
          (grabNext (GrabBindingData.new none none) false
              (effectivePressure (0 : ℚ) (0.71 : ℚ))) != false,
          (0 : ℤ), true⟩) ∧
    (effectivePressure (0 : ℚ) (0.71 : ℚ) =
      if (0 : ℚ) > 0 then (0 : ℚ) + 1 else (0.71 : ℚ)) ∧
    (∀ v : ℚ, (grabNext (GrabBindingData.new none none) false v = true ↔ v ≥ 0.70)) ∧
    (∀ v : ℚ, (grabNext (GrabBindingData.new none none) true v = true ↔ v > 0.65)) ∧
    (∀ v : ℚ, v ≤ 0.65 → grabNext (GrabBindingData.new none none) true v = false) ∧
    (∀ b prev : Bool, ((b != prev) = true ↔ b ≠ prev)) :=
  grab_hysteresis false ⟨(0 : ℚ), false, 0, true⟩ ⟨(0.71 : ℚ), false, 0, true⟩ rfl rfl

/-! ## Theorems: threshold (C3) -/

/-- C3: for a threshold binding whose source is active, with default
thresholds: when the latch is off the output becomes true exactly when the
source value is ≥ 0.25, when the latch is on it becomes false exactly when
the value is < 0.20, and any input sequence staying inside the hysteresis
band [release, click) leaves the latch (hence the output) unchanged. -/
theorem threshold_hysteresis (last_state : Bool) (state : ActionState ℚ)
    (h : state.is_active = true) (values : List ℚ)
    (hband : ∀ v ∈ values, 0.20 ≤ v ∧ v < 0.25) :
    (ThresholdBindingData.new none none).state last_state state =
      (thresholdNext (ThresholdBindingData.new none none) last_state state.current_state,
        some ⟨thresholdNext (ThresholdBindingData.new none none) last_state state.current_state,
          (thresholdNext (ThresholdBindingData.new none none) last_state state.current_state)
            != last_state,
          state.last_change_time, true⟩) ∧
    (∀ v : ℚ, (thresholdNext (ThresholdBindingData.new none none) false v = true ↔ v ≥ 0.25)) ∧
    (∀ v : ℚ, (thresholdNext (ThresholdBindingData.new none none) true v = false ↔ v < 0.20)) ∧
    (ThresholdBindingData.new none none).run last_state values = last_state := by
  refine ⟨by simp [ThresholdBindingData.state, h], ?_, ?_, ?_⟩
  · intro v
    simp [thresholdNext, ThresholdBindingData.new, ThresholdBindingData.DEFAULT_CLICK_THRESHOLD,
      decide_eq_true_eq]
  · intro v
    simp [thresholdNext, ThresholdBindingData.new,
      ThresholdBindingData.DEFAULT_RELEASE_THRESHOLD, decide_eq_true_eq]
  · clear h state
    induction values generalizing last_state with
    | nil => rfl
    | cons v vs ih =>
      have hv := hband v (List.mem_cons_self v vs)
      have step : (ThresholdBindingData.state (ThresholdBindingData.new none none) last_state
          ⟨v, false, 0, true⟩).1 = last_state := by
        cases last_state
        · have : ¬((0.25 : ℚ) ≤ v) := not_le.mpr hv.2
          simp [ThresholdBindingData.state, thresholdNext, ThresholdBindingData.new,
            ThresholdBindingData.DEFAULT_CLICK_THRESHOLD, decide_eq_true_eq, this]
        · simp [ThresholdBindingData.state, thresholdNext, ThresholdBindingData.new,
            ThresholdBindingData.DEFAULT_RELEASE_THRESHOLD, decide_eq_true_eq, hv.1]
      have tail := ih last_state (fun w hw => hband w (List.mem_cons_of_mem v hw))
      simpa [ThresholdBindingData.run, step] using tail

/-- Witness for threshold_hysteresis: source value 0.3, band sequence [0.21, 0.22]. -/
theorem threshold_hysteresis_witness :
    (ThresholdBindingData.new none none).state false ⟨(0.3 : ℚ), false, 0, true⟩ =
      (thresholdNext (ThresholdBindingData.new none none) false (0.3 : ℚ),
        some ⟨thresholdNext (ThresholdBindingData.new none none) false (0.3 : ℚ),
          (thresholdNext (ThresholdBindingData.new none none) false (0.3 : ℚ)) != false,
          (0 : ℤ), true⟩) ∧
    (∀ v : ℚ, (thresholdNext (ThresholdBindingData.new none none) false v = true ↔ v ≥ 0.25)) ∧
    (∀ v : ℚ, (thresholdNext (ThresholdBindingData.new none none) true v = false ↔ v < 0.20)) ∧
    (ThresholdBindingData.new none none).run false [(0.21 : ℚ), 0.22] = false :=
  threshold_hysteresis false ⟨(0.3 : ℚ), false, 0, true⟩ rfl [(0.21 : ℚ), 0.22]
    (by intro v hv; fin_cases hv <;> norm_num)

/-! ## Theorems: toggle (C4) -/

/-- C4: for a toggle binding whose source is active, the latch flips
exactly on a rising edge (source changed since last sync and now true), is
unchanged otherwise (in particular on a falling edge), and the returned
changed_since_last_sync is true exactly when the latch flipped. -/
theorem toggle_edge (last_state : Bool) (state : ActionState Bool)
    (h : state.is_active = true) :
    ToggleData.state last_state state =
      (toggleNext last_state state,
        some ⟨toggleNext last_state state, (toggleNext last_state state) != last_state,
          state.last_change_time, true⟩) ∧
    ((state.changed_since_last_sync = true ∧ state.current_state = true) →
      toggleNext last_state state = !last_state ∧
        ((toggleNext last_state state) != last_state) = true) ∧
    (¬(state.changed_since_last_sync = true ∧ state.current_state = true) →
      toggleNext last_state state = last_state ∧
        ((toggleNext last_state state) != last_state) = false) ∧
    (((toggleNext last_state state) != last_state) = true ↔
      toggleNext last_state state ≠ last_state) := by
  refine ⟨by simp [ToggleData.state, h], ?_, ?_, ?_⟩
  · rintro ⟨hc, hs⟩
    cases last_state <;> simp [toggleNext, hc, hs]
  · intro hne
    rcases hcs : state.changed_since_last_sync with _ | _
    · cases last_state <;> simp [toggleNext, hcs]
    · rcases hss : state.current_state with _ | _
      · cases last_state <;> simp [toggleNext, hcs, hss]
      · exact absurd ⟨hcs, hss⟩ hne
  · cases toggleNext last_state state <;> cases last_state <;> simp

/-! ## Theorems: per-sync memoization (C5) -/

/-- C5: for a custom binding queried on its own hand with its extra actions
present, the first BindingData::state call after an unsync runs the
underlying evaluator once.  Every further call before the next unsync
returns exactly the stored result: it leaves the evaluator latch untouched
and its outcome does not even depend on the evaluator, so n + 1 reads
within one sync all return the identical state; unsync resets the memo. -/
theorem binding_memoization {σ St E : Type} (eval : σ → Except E (σ × Option St))
    (hand : ℕ) (latch0 latch1 : σ) (r : Option St)
    (heval : eval latch0 = Except.ok (latch1, r)) :
    BindingData.state eval true hand hand BindingState.Unsynced latch0 =
      Except.ok (BindingState.Synced r, latch1, r) ∧
    (∀ (eval' : σ → Except E (σ × Option St)) (hasAction : Bool) (s : Option St) (latch : σ),
      BindingData.state eval' hasAction hand hand (BindingState.Synced s) latch =
        Except.ok (BindingState.Synced s, latch, s)) ∧
    (∀ n : ℕ, BindingData.stateN eval true hand hand (n + 1) BindingState.Unsynced latch0 =
      Except.ok (BindingState.Synced r, latch1, List.replicate (n + 1) r)) ∧
    (∀ b : BindingState St, BindingData.unsync b = BindingState.Unsynced) := by
  have hfirst : BindingData.state eval true hand hand BindingState.Unsynced latch0 =
      Except.ok (BindingState.Synced r, latch1, r) := by
    simp [BindingData.state, heval]
  have hsync : ∀ (eval' : σ → Except E (σ × Option St)) (hasAction : Bool)
      (s : Option St) (latch : σ),
      BindingData.state eval' hasAction hand hand (BindingState.Synced s) latch =
        Except.ok (BindingState.Synced s, latch, s) := by
    intro eval' ha s latch
    simp [BindingData.state]
  have hsyncN : ∀ (n : ℕ) (s : Option St) (latch : σ),
      BindingData.stateN eval true hand hand n (BindingState.Synced s) latch =
        Except.ok (BindingState.Synced s, latch, List.replicate n s) := by
    intro n
    induction n with
    | zero => intro s latch; rfl
    | succ k ih =>
      intro s latch
      simp [BindingData.stateN, hsync eval true s latch, ih s latch,
        List.replicate_succ]
  refine ⟨hfirst, hsync, ?_, fun _ => rfl⟩
  intro n
  simp [BindingData.stateN, hfirst, hsyncN n r latch1, List.replicate_succ]

/-- Witness for binding_memoization: a boolean-latch evaluator that flips
its latch and reports a pressed state, read three times on hand 1. -/
theorem binding_memoization_witness :
    (fun l : Bool => (Except.ok (!l, some true) : Except Unit (Bool × Option Bool))) false =
      Except.ok (true, some true) ∧
    BindingData.stateN
        (fun l : Bool => (Except.ok (!l, some true) : Except Unit (Bool × Option Bool)))
        true 1 1 3 BindingState.Unsynced false =
      Except.ok (BindingState.Synced (some true), true, List.replicate 3 (some true)) :=
  ⟨rfl, (binding_memoization
    (fun l : Bool => (Except.ok (!l, some true) : Except Unit (Bool × Option Bool)))
    1 false true (some true) rfl).2.2.1 2⟩

/-! ## Theorems: handle stability (C6) -/

/-- Helper: find-or-insert returns the same key on a repeated query whose
normalized form agrees, and leaves the map untouched the second time. -/
theorem getOrInsertHandle_stable (normalize : String → String) (m : HandleMap) (a b : String)
    (hab : normalize a = normalize b) :
    getOrInsertHandle normalize (getOrInsertHandle normalize m a).1 b =
      ((getOrInsertHandle normalize m a).1, (getOrInsertHandle normalize m a).2) := by
  rcases hfind : m.entries.find? (fun e => e.2 == normalize a) with _ | e
  · have h1 : getOrInsertHandle normalize m a =
        (⟨m.entries ++ [(m.next_key, normalize a)], m.next_key + 1⟩, m.next_key) := by
      simp [getOrInsertHandle, hfind]
    have h2 : (m.entries ++ [(m.next_key, normalize a)]).find?
        (fun e => e.2 == normalize b) = some (m.next_key, normalize a) := by
      rw [List.find?_append, ← hab, hfind]
      simp
    rw [h1]
    simp [getOrInsertHandle, h2]
  · have h1 : getOrInsertHandle normalize m a = (m, e.1) := by
      simp [getOrInsertHandle, hfind]
    have h2 : m.entries.find? (fun x => x.2 == normalize b) = some e := by
      rw [← hab]; exact hfind
    rw [h1]
    simp [getOrInsertHandle, h2]

/-- C6: two calls to the same Get*Handle with the same path return the same
handle; for actions and action sets the lookup key is the lowercased name,
so names differing only in letter case return identical handles; and the
second call never inserts again (the map is unchanged by it). -/
theorem handle_stability (m : HandleMap) (a b p : String)
    (hab : toLowercase a = toLowercase b) :
    ((GetActionHandle (GetActionHandle m a).1 b).2 = (GetActionHandle m a).2 ∧
      (GetActionHandle (GetActionHandle m a).1 b).1 = (GetActionHandle m a).1) ∧
    ((GetActionSetHandle (GetActionSetHandle m a).1 b).2 = (GetActionSetHandle m a).2 ∧
      (GetActionSetHandle (GetActionSetHandle m a).1 b).1 = (GetActionSetHandle m a).1) ∧
    ((GetInputSourceHandle (GetInputSourceHandle m p).1 p).2 = (GetInputSourceHandle m p).2 ∧
      (GetInputSourceHandle (GetInputSourceHandle m p).1 p).1 = (GetInputSourceHandle m p).1) := by
  have h1 := getOrInsertHandle_stable toLowercase m a b hab
  have h3 := getOrInsertHandle_stable id m p p rfl
  refine ⟨⟨?_, ?_⟩, ⟨?_, ?_⟩, ⟨?_, ?_⟩⟩
  · exact congrArg Prod.snd h1
  · exact congrArg Prod.fst h1
  · exact congrArg Prod.snd h1
  · exact congrArg Prod.fst h1
  · exact congrArg Prod.snd h3
  · exact congrArg Prod.fst h3

/-- Witness for handle_stability on an empty map with the names "Foo" and
"foO" (case-insensitive matching) and the source path "/user/hand/left". -/
theorem handle_stability_witness :
    toLowercase "Foo" = toLowercase "foO" ∧
    (GetActionHandle (GetActionHandle ⟨[], 0⟩ "Foo").1 "foO").2 =
      (GetActionHandle ⟨[], 0⟩ "Foo").2 :=
  ⟨by decide,
    (handle_stability ⟨[], 0⟩ "Foo" "foO" "/user/hand/left" (by decide)).1.1⟩

/-- Witness for toggle_edge at a rising edge with the latch off. -/
theorem toggle_edge_witness :
    ToggleData.state false ⟨true, true, 0, true⟩ =
      (toggleNext false ⟨true, true, 0, true⟩,
        some ⟨toggleNext false ⟨true, true, 0, true⟩,
          (toggleNext false ⟨true, true, 0, true⟩) != false, (0 : ℤ), true⟩) ∧
    (((⟨true, true, 0, true⟩ : ActionState Bool).changed_since_last_sync = true ∧
        (⟨true, true, 0, true⟩ : ActionState Bool).current_state = true) →
      toggleNext false ⟨true, true, 0, true⟩ = !false ∧
        ((toggleNext false ⟨true, true, 0, true⟩) != false) = true) ∧
    (¬((⟨true, true, 0, true⟩ : ActionState Bool).changed_since_last_sync = true ∧
        (⟨true, true, 0, true⟩ : ActionState Bool).current_state = true) →
      toggleNext false ⟨true, true, 0, true⟩ = false ∧
        ((toggleNext false ⟨true, true, 0, true⟩) != false) = false) ∧
    (((toggleNext false ⟨true, true, 0, true⟩) != false) = true ↔
      toggleNext false ⟨true, true, 0, true⟩ ≠ false) :=
  toggle_edge false ⟨true, true, 0, true⟩ rfl

end Xrizer

namespace Xrizer

/-! ## Theorems: legacy/manifest exclusivity (C7) -/

/-- C7: once a manifest's actions are loaded for the current session,
get_legacy_controller_state returns false for every device index, while
legacy_haptic still triggers a vibration of duration_us * 1000 nanoseconds
at amplitude 1.0 by rerouting it to the first haptic action found among
the manifest's actions. -/
theorem legacy_manifest_exclusivity :
    (∀ (state_size_ok ptr_nonnull legacy_ready : Bool) (device_to_hand : Option Hand)
        (packet_num : ℕ) (r : LegacyReadings) (mem : Option VRControllerState),
      (get_legacy_controller_state state_size_ok ptr_nonnull true legacy_ready
        device_to_hand packet_num r mem).1 = false) ∧
    (∀ (hand : Hand) (actions : List ActionData) (h : ℕ) (legacy_ready : Bool)
        (duration_us : ℕ),
      firstHapticAction actions = some h →
      legacy_haptic (some hand) (some actions) legacy_ready duration_us =
        some (HapticTarget.ManifestAction h, ⟨1, true, (duration_us : ℤ) * 1000⟩)) := by
  constructor
  · intro sso pn lr dh p r mem
    cases sso <;> cases pn <;> simp [get_legacy_controller_state]
  · intro hand actions h lr dus hfind
    simp [legacy_haptic, legacy_haptic_via_manifest, hfind]

/-- Witness for legacy_manifest_exclusivity: a two-entry manifest whose
second action is haptic, pulsed for 3000 microseconds. -/
theorem legacy_manifest_exclusivity_witness :
    firstHapticAction [ActionData.Bool, ActionData.Haptic 7] = some 7 ∧
    legacy_haptic (some Hand.Left) (some [ActionData.Bool, ActionData.Haptic 7]) true 3000 =
      some (HapticTarget.ManifestAction 7, ⟨1, true, (3000 : ℤ) * 1000⟩) :=
  ⟨rfl, legacy_manifest_exclusivity.2 Hand.Left [ActionData.Bool, ActionData.Haptic 7]
    7 true 3000 rfl⟩

/-! ## Theorems: device table capacity (C8) -/

/-- C8: the tracked-device table never exceeds k_unMaxTrackedDeviceCount
entries: push_device errors with MaxCapacityReached and hands the list
back unchanged when the next index would reach the limit and appends at
the next index otherwise; generic-tracker enumeration keeps the bound,
creates trackers only from xdevs whose space is creatable, and truncates
the candidate list to the capacity remaining after the devices already in
the table. -/
theorem device_table_capacity :
    (∀ (devices : List TrackedDeviceType) (device : TrackedDeviceType),
      devices.length ≥ k_unMaxTrackedDeviceCount →
        push_device devices device =
          (devices, Except.error EVRInputError.MaxCapacityReached)) ∧
    (∀ (devices : List TrackedDeviceType) (device : TrackedDeviceType),
      devices.length < k_unMaxTrackedDeviceCount →
        push_device devices device = (devices ++ [device], Except.ok devices.length) ∧
        (devices ++ [device]).length ≤ k_unMaxTrackedDeviceCount) ∧
    (∀ (ext : Bool) (devices : List TrackedDeviceType) (xdevs : List XDev),
      devices.length ≤ k_unMaxTrackedDeviceCount →
        (create_monado_generic_trackers ext devices xdevs).length ≤
          k_unMaxTrackedDeviceCount) ∧
    (∀ (devices : List TrackedDeviceType) (xdevs : List XDev) (serial : String),
      TrackedDeviceType.GenericTracker serial ∈
          create_monado_generic_trackers true devices xdevs →
        ∃ x ∈ xdevs, x.can_create_space = true ∧ x.serial = serial) ∧
    (∀ (devices : List TrackedDeviceType) (xdevs : List XDev),
      create_monado_generic_trackers true devices xdevs =
        devices.filter (fun d => !(isGenericTracker d)) ++
          ((xdevs.filter (fun x => x.can_create_space && nameContainsTracker x.name)).take
            (k_unMaxTrackedDeviceCount -
              (devices.filter (fun d => !(isGenericTracker d))).length)).map
            (fun x => TrackedDeviceType.GenericTracker x.serial)) := by
  refine ⟨?_, ?_, ?_, ?_, ?_⟩
  · intro devices device h
    simp [push_device, h]
  · intro devices device h
    have hc : ¬(devices.length ≥ k_unMaxTrackedDeviceCount) := not_le.mpr h
    refine ⟨by simp [push_device, hc], ?_⟩
    simp only [List.length_append, List.length_singleton]
    simp only [k_unMaxTrackedDeviceCount] at h ⊢
    omega
  · intro ext devices xdevs hlen
    cases ext
    · simpa [create_monado_generic_trackers] using hlen
    · have hkept : (devices.filter (fun d => !(isGenericTracker d))).length ≤
          devices.length := List.length_filter_le _ _
      simp only [create_monado_generic_trackers, Bool.not_true, Bool.false_eq_true,
        if_false, List.length_append, List.length_map, List.length_take]
      simp only [k_unMaxTrackedDeviceCount] at hlen ⊢
      omega
  · intro devices xdevs serial hmem
    simp only [create_monado_generic_trackers, Bool.not_true, Bool.false_eq_true,
      if_false] at hmem
    rcases List.mem_append.mp hmem with hl | hr
    · exact absurd ((List.mem_filter.mp hl).2) (by simp [isGenericTracker])
    · rcases List.mem_map.mp hr with ⟨x, hx, hxe⟩
      have hx' : x ∈ xdevs.filter (fun x => x.can_create_space && nameContainsTracker x.name) :=
        List.take_subset _ _ hx
      have hfx := List.mem_filter.mp hx'
      have hcc : x.can_create_space = true := (Bool.and_eq_true _ _ |>.mp hfx.2).1
      refine ⟨x, hfx.1, hcc, ?_⟩
      exact (TrackedDeviceType.GenericTracker.injEq _ _).mp hxe
  · intro devices xdevs
    rfl

/-- Witness for device_table_capacity: pushing onto a full 64-entry table
fails with MaxCapacityReached and leaves the table unchanged. -/
theorem device_table_capacity_witness :
    (List.replicate 64 TrackedDeviceType.Hmd).length ≥ k_unMaxTrackedDeviceCount ∧
    push_device (List.replicate 64 TrackedDeviceType.Hmd) TrackedDeviceType.Hmd =
      (List.replicate 64 TrackedDeviceType.Hmd,
        Except.error EVRInputError.MaxCapacityReached) :=
  ⟨by decide, device_table_capacity.1 (List.replicate 64 TrackedDeviceType.Hmd)
    TrackedDeviceType.Hmd (by decide)⟩

/-! ## Theorems: skeletal tracking level (C9) -/

/-- C9 (amended): GetSkeletalTrackingLevel ignores the queried action and
always reports the Partial tracking level with no error, whatever device
is behind the action. -/
theorem skeletal_tracking_level_constant (action : ℕ) :
    GetSkeletalTrackingLevel action =
      ( EVRSkeletalTrackingLevel.Partial, EVRInputError.None) :=
  rfl

/-- C9 counterexample: with a hand tracker active the claim says the level
is Full, but the implementation reports Partial for every action handle,
in particular for handle 0. -/
theorem skeletal_tracking_level_counterexample :
    specSkeletalTrackingLevel true false = EVRSkeletalTrackingLevel.Full ∧
    (GetSkeletalTrackingLevel 0).1 = EVRSkeletalTrackingLevel.Partial ∧
    (GetSkeletalTrackingLevel 0).1 ≠ specSkeletalTrackingLevel true false :=
  ⟨rfl, rfl, by decide⟩

/-! ## Theorems: controller state initialization (C10) -/

/-- C10: whenever get_legacy_controller_state is called with a non-null
out-pointer and the correct struct size, the pointed-to VRControllerState_t
is written before the function returns on every path, including the
failure paths that return false, and the written value does not depend on
what the memory held before the call, so the caller never observes
uninitialized memory. -/
theorem controller_state_always_written (manifest_loaded legacy_ready : Bool)
    (device_to_hand : Option Hand) (packet_num : ℕ) (r : LegacyReadings)
    (mem mem' : Option VRControllerState) :
    ((get_legacy_controller_state true true manifest_loaded legacy_ready device_to_hand
        packet_num r mem).2).isSome = true ∧
    (get_legacy_controller_state true true manifest_loaded legacy_ready device_to_hand
        packet_num r mem).2 =
      (get_legacy_controller_state true true manifest_loaded legacy_ready device_to_hand
        packet_num r mem').2 := by
  cases manifest_loaded <;> cases legacy_ready <;> cases device_to_hand <;>
    simp [get_legacy_controller_state, writeOnDrop]

end Xrizer

namespace Xrizer

/-! ## Theorems: dpad wedges (C2) -/

/-- Sign of arctan on nonnegative inputs. -/
theorem arctan_nonneg_of (x : ℝ) (h : 0 ≤ x) : 0 ≤ Real.arctan x := by
  have hm := Real.arctan_strictMono.monotone h
  rwa [Real.arctan_zero] at hm

/-- Sign of arctan on nonpositive inputs. -/
theorem arctan_nonpos_of (x : ℝ) (h : x ≤ 0) : Real.arctan x ≤ 0 := by
  have hm := Real.arctan_strictMono.monotone h
  rwa [Real.arctan_zero] at hm

/-- Sign of arctan on positive inputs. -/
theorem arctan_pos_of (x : ℝ) (h : 0 < x) : 0 < Real.arctan x := by
  have hm := Real.arctan_strictMono h
  rwa [Real.arctan_zero] at hm

/-- The atan2 model always lands in (-π, π]. -/
theorem atan2_range (y x : ℝ) : -Real.pi < atan2 y x ∧ atan2 y x ≤ Real.pi := by
  have hpi := Real.pi_pos
  unfold atan2
  split_ifs with h1 h2 h3 h4 h5
  · have ha := Real.arctan_lt_pi_div_two (y / x)
    have hb := Real.neg_pi_div_two_lt_arctan (y / x)
    constructor <;> linarith
  · constructor <;> linarith
  · constructor <;> linarith
  · constructor <;> linarith
  · have hx : x < 0 := lt_of_le_of_ne (not_lt.mp h1) h2
    have hyx : y / x ≤ 0 := div_nonpos_of_nonneg_of_nonpos h5 (le_of_lt hx)
    have ha := arctan_nonpos_of (y / x) hyx
    have hb := Real.neg_pi_div_two_lt_arctan (y / x)
    constructor <;> linarith
  · have hx : x < 0 := lt_of_le_of_ne (not_lt.mp h1) h2
    have hy : y < 0 := lt_of_not_ge h5
    have hyx : 0 < y / x := div_pos_of_neg_of_neg hy hx
    have ha := arctan_pos_of (y / x) hyx
    have hb := Real.arctan_lt_pi_div_two (y / x)
    constructor <;> linarith

/-- For a center angle within [-π/2, π/2] and an angle in atan2 range, the
wedge membership modulo full turns collapses to the plain interval. -/
theorem inWedge_iff_small (c θ : ℝ) (hc : |c| ≤ Real.pi / 2)
    (h1 : -Real.pi < θ) (h2 : θ ≤ Real.pi) :
    inWedge c θ ↔ (c - Real.pi / 4 ≤ θ ∧ θ ≤ c + Real.pi / 4) := by
  have hpi := Real.pi_pos
  have hc1 := (abs_le.mp hc).1
  have hc2 := (abs_le.mp hc).2
  constructor
  · rintro ⟨k, hk⟩
    have h2pi : (0:ℝ) < 2 * Real.pi := by linarith
    have hk1 := (abs_le.mp hk).1
    have hk2 := (abs_le.mp hk).2
    have hub : 2 * Real.pi * (k:ℝ) < 2 * Real.pi * 1 := by nlinarith
    have hlb : 2 * Real.pi * (-1:ℝ) < 2 * Real.pi * (k:ℝ) := by nlinarith
    have hk01 : (k:ℝ) < 1 := (mul_lt_mul_left h2pi).mp hub
    have hk02 : (-1:ℝ) < (k:ℝ) := (mul_lt_mul_left h2pi).mp hlb
    have hkz1 : k < 1 := by exact_mod_cast hk01
    have hkz2 : (-1:ℤ) < k := by exact_mod_cast hk02
    have hk0 : k = 0 := by omega
    subst hk0
    push_cast at hk1 hk2
    constructor <;> linarith
  · rintro ⟨ha, hb⟩
    refine ⟨0, ?_⟩
    push_cast
    rw [abs_le]
    constructor <;> linarith

/-- For the west center angle π and an angle in atan2 range, wedge
membership modulo full turns is the union of the two boundary intervals. -/
theorem inWedge_pi_iff (θ : ℝ) (h1 : -Real.pi < θ) (h2 : θ ≤ Real.pi) :
    inWedge Real.pi θ ↔
      ((3 * Real.pi / 4 ≤ θ ∧ θ ≤ Real.pi) ∨
        (-Real.pi ≤ θ ∧ θ ≤ -(3 * Real.pi / 4))) := by
  have hpi := Real.pi_pos
  constructor
  · rintro ⟨k, hk⟩
    have h2pi : (0:ℝ) < 2 * Real.pi := by linarith
    have hk1 := (abs_le.mp hk).1
    have hk2 := (abs_le.mp hk).2
    have hub : 2 * Real.pi * (k:ℝ) < 2 * Real.pi * 1 := by nlinarith
    have hlb : 2 * Real.pi * (-2:ℝ) < 2 * Real.pi * (k:ℝ) := by nlinarith
    have hk01 : (k:ℝ) < 1 := (mul_lt_mul_left h2pi).mp hub
    have hk02 : (-2:ℝ) < (k:ℝ) := (mul_lt_mul_left h2pi).mp hlb
    have hkz1 : k < 1 := by exact_mod_cast hk01
    have hkz2 : (-2:ℤ) < k := by exact_mod_cast hk02
    have : k = 0 ∨ k = -1 := by omega
    rcases this with rfl | rfl
    · left
      push_cast at hk1 hk2
      constructor <;> linarith
    · right
      push_cast at hk1 hk2
      constructor <;> linarith
  · rintro (⟨ha, hb⟩ | ⟨ha, hb⟩)
    · refine ⟨0, ?_⟩
      push_cast
      rw [abs_le]
      constructor <;> linarith
    · refine ⟨-1, ?_⟩
      push_cast
      rw [abs_le]
      constructor <;> linarith

/-- The source's interval tests agree with the claim's wedge reading. -/
theorem dpadInBounds_iff_spec (direction : DpadDirection) (x y : ℝ) :
    dpadInBounds direction x y = true ↔ dpadSpecActive direction x y := by
  obtain ⟨hr1, hr2⟩ := atan2_range y x
  have hpi := Real.pi_pos
  cases direction
  case North =>
    simp only [dpadInBounds, dpadSpecActive, decide_eq_true_eq, wedgeCenter,
      DpadData.CENTER_ZONE, ge_iff_le]
    refine and_congr_right fun _ => ?_
    rw [inWedge_iff_small (Real.pi / 2) (atan2 y x)
      (by rw [abs_of_nonneg (by linarith)]) hr1 hr2]
    constructor <;> rintro ⟨ha, hb⟩ <;> constructor <;> linarith
  case East =>
    simp only [dpadInBounds, dpadSpecActive, decide_eq_true_eq, wedgeCenter,
      DpadData.CENTER_ZONE, ge_iff_le]
    refine and_congr_right fun _ => ?_
    rw [inWedge_iff_small 0 (atan2 y x)
      (by rw [abs_of_nonneg le_rfl]; linarith) hr1 hr2]
    constructor <;> rintro ⟨ha, hb⟩ <;> constructor <;> linarith
  case South =>
    simp only [dpadInBounds, dpadSpecActive, decide_eq_true_eq, wedgeCenter,
      DpadData.CENTER_ZONE, ge_iff_le]
    refine and_congr_right fun _ => ?_
    rw [inWedge_iff_small (-(Real.pi / 2)) (atan2 y x)
      (by rw [abs_neg, abs_of_nonneg (by linarith)]) hr1 hr2]
    constructor <;> rintro ⟨ha, hb⟩ <;> constructor <;> linarith
  case West =>
    simp only [dpadInBounds, dpadSpecActive, decide_eq_true_eq, wedgeCenter,
      DpadData.CENTER_ZONE, ge_iff_le]
    refine and_congr_right fun _ => ?_
    rw [inWedge_pi_iff (atan2 y x) hr1 hr2]
  case Center =>
    simp only [dpadInBounds, dpadSpecActive, decide_eq_true_eq, DpadData.CENTER_ZONE]

/-- hypot at (0, 0.5). -/
theorem hypot_north_example : hypot 0 0.5 = 0.5 := by
  rw [hypot, show (0:ℝ) * 0 + 0.5 * 0.5 = 0.5 ^ 2 by norm_num,
    Real.sqrt_sq (by norm_num)]

/-- hypot at (0.5, 0). -/
theorem hypot_east_example : hypot 0.5 0 = 0.5 := by
  rw [hypot, show (0.5:ℝ) * 0.5 + 0 * 0 = 0.5 ^ 2 by norm_num,
    Real.sqrt_sq (by norm_num)]

/-- atan2 at clean north deflection. -/
theorem atan2_north_example : atan2 0.5 0 = Real.pi / 2 := by
  rw [atan2, if_neg (by norm_num), if_pos rfl, if_pos (by norm_num)]

/-- atan2 at clean east deflection. -/
theorem atan2_east_example : atan2 0 0.5 = 0 := by
  rw [atan2, if_pos (by norm_num)]
  norm_num

/-- atan2 in the second quadrant, next to the branch cut. -/
theorem atan2_west_example : atan2 0.1 (-0.9) = Real.pi - Real.arctan (1 / 9) := by
  rw [atan2, if_neg (by norm_num), if_neg (by norm_num), if_pos (by norm_num)]
  rw [show (0.1:ℝ) / (-0.9) = -(1 / 9) by norm_num, Real.arctan_neg]
  ring

/-- C2: for a dpad whose activator is held (or unbound), state reports the
polar wedge test as its current value; the wedge test is exactly the
claim's radius ≥ 0.5 plus closed π/2-wide wedge around the direction
(radius < 0.5 for Center); and concretely (0, 0.5) is active on a
north-bound dpad, (0.5, 0) is not, and (-0.9, 0.1) is active west-bound. -/
theorem dpad_wedges :
    (∀ (direction : DpadDirection) (last_state has_haptic : Bool)
        (parent_state : ActionState (ℝ × ℝ)) (click_or_touch : Option (ActionState ℝ)),
      dpadActivatorHeld last_state click_or_touch = true →
      DpadData.state direction last_state has_haptic parent_state click_or_touch =
        { last_state := dpadInBounds direction parent_state.current_state.1
            parent_state.current_state.2,
          active := true,
          changed := (dpadInBounds direction parent_state.current_state.1
              parent_state.current_state.2) != last_state,
          haptic_fired := ((dpadInBounds direction parent_state.current_state.1
                parent_state.current_state.2) != last_state) &&
              dpadInBounds direction parent_state.current_state.1
                parent_state.current_state.2 && has_haptic,
          result := some ⟨dpadInBounds direction parent_state.current_state.1
              parent_state.current_state.2,
            (dpadInBounds direction parent_state.current_state.1
                parent_state.current_state.2) != last_state,
            parent_state.last_change_time, parent_state.is_active⟩ }) ∧
    (∀ (direction : DpadDirection) (x y : ℝ),
      dpadInBounds direction x y = true ↔ dpadSpecActive direction x y) ∧
    dpadInBounds DpadDirection.North 0 0.5 = true ∧
    dpadInBounds DpadDirection.North 0.5 0 = false ∧
    dpadInBounds DpadDirection.West (-0.9) 0.1 = true := by
  have hpi := Real.pi_pos
  refine ⟨?_, dpadInBounds_iff_spec, ?_, ?_, ?_⟩
  · intro direction last_state has_haptic parent_state click_or_touch hheld
    simp [DpadData.state, hheld]
  · simp only [dpadInBounds, decide_eq_true_eq]
    refine ⟨?_, ?_, ?_⟩
    · rw [hypot_north_example, DpadData.CENTER_ZONE]
    · rw [atan2_north_example]
      linarith
    · rw [atan2_north_example]
      linarith
  · simp only [dpadInBounds, decide_eq_false_iff_not]
    rintro ⟨-, hlow, -⟩
    rw [atan2_east_example] at hlow
    linarith
  · simp only [dpadInBounds, decide_eq_true_eq]
    have harc1 : Real.arctan (1 / 9) ≤ Real.pi / 4 := by
      have hm := Real.arctan_strictMono.monotone (by norm_num : (1/9 : ℝ) ≤ 1)
      rwa [Real.arctan_one] at hm
    have harc0 : 0 ≤ Real.arctan (1 / 9) := arctan_nonneg_of _ (by norm_num)
    refine ⟨?_, Or.inl ⟨?_, ?_⟩⟩
    · rw [DpadData.CENTER_ZONE, hypot]
      calc (0.5:ℝ) = Real.sqrt 0.25 := by
            rw [show (0.25:ℝ) = 0.5 ^ 2 by norm_num, Real.sqrt_sq (by norm_num)]
        _ ≤ Real.sqrt ((-0.9) * (-0.9) + 0.1 * 0.1) := Real.sqrt_le_sqrt (by norm_num)
    · rw [atan2_west_example]
      linarith
    · rw [atan2_west_example]
      linarith

/-- Witness for dpad_wedges: a north dpad with unbound activator reading
(0, 0.5) from an untouched latch. -/
theorem dpad_wedges_witness :
    dpadActivatorHeld false none = true ∧
    DpadData.state DpadDirection.North false false ⟨(0, 0.5), false, 0, true⟩ none =
      { last_state := dpadInBounds DpadDirection.North 0 0.5,
        active := true,
        changed := (dpadInBounds DpadDirection.North 0 0.5) != false,
        haptic_fired := ((dpadInBounds DpadDirection.North 0 0.5) != false) &&
            dpadInBounds DpadDirection.North 0 0.5 && false,
        result := some ⟨dpadInBounds DpadDirection.North 0 0.5,
          (dpadInBounds DpadDirection.North 0 0.5) != false, (0 : ℤ), true⟩ } :=
  ⟨rfl, dpad_wedges.1 DpadDirection.North false false ⟨(0, 0.5), false, 0, true⟩ none rfl⟩

end Xrizer
